import Mathlib

/-!
Verification of the HexShell KSP orbital-mechanics module
(`src/hexshell/contexts/ksp/orbital_display.py`).

The module is pure computation: a static catalog of celestial bodies
(`BODIES`), an orbital-parameter derivation (`OrbitalParameters.__init__`),
key-driven clamped apsis adjustments (`KSPOrbitalDisplay.on_key`), an ASCII
orbit renderer (`KSPOrbitalDisplay._generate_orbit_ascii`), and a delta-v
calculator (`DeltaVCalculator`).

Embedding conventions:
* Python floats are modelled by exact arithmetic: `ℚ` where the computation
  is rational (catalog constants, eccentricity, clamping, the ellipse grid)
  and `ℝ` where `math.sqrt` / `math.pi` enter (period, velocities, delta-v).
* Python `int()` truncation toward zero is `pythonInt`.
* The dictionary `BODIES` is an association list keyed by the lowercase id;
  `set_body`'s `body_name.lower() in BODIES` check is `set_body_lookup`.
-/

namespace KSP

/-- A celestial body record, mirroring one entry of the `BODIES` dict
(lines 22-77 of `orbital_display.py`).  Numeric constants are kept as exact
rationals; all source values are integers exactly representable in binary64,
so nothing is lost. -/
structure CelestialBody where
  name : String
  radius : ℚ
  mu : ℚ
  atmosphere : ℚ
  soi : ℚ
  color : String
  symbol : String
deriving DecidableEq, Repr

/-- `BODIES["kerbin"]`. -/
def kerbin : CelestialBody :=
  { name := "Kerbin", radius := 600000, mu := 3531600000000,
    atmosphere := 70000, soi := 84159286, color := "blue", symbol := "E" }

/-- `BODIES["mun"]`. -/
def mun : CelestialBody :=
  { name := "Mun", radius := 200000, mu := 65138000000,
    atmosphere := 0, soi := 2430559, color := "gray", symbol := "M" }

/-- `BODIES["minmus"]`. -/
def minmus : CelestialBody :=
  { name := "Minmus", radius := 60000, mu := 1765800000,
    atmosphere := 0, soi := 2247428, color := "cyan", symbol := "m" }

/-- `BODIES["duna"]`. -/
def duna : CelestialBody :=
  { name := "Duna", radius := 320000, mu := 301360000000,
    atmosphere := 50000, soi := 47921949, color := "red", symbol := "D" }

/-- `BODIES["eve"]`. -/
def eve : CelestialBody :=
  { name := "Eve", radius := 700000, mu := 8171700000000,
    atmosphere := 90000, soi := 85109365, color := "purple", symbol := "V" }

/-- `BODIES["jool"]`. -/
def jool : CelestialBody :=
  { name := "Jool", radius := 6000000, mu := 282530000000000,
    atmosphere := 200000, soi := 2455900000, color := "green", symbol := "J" }

/-- The `BODIES` dictionary as an association list in declaration order. -/
def BODIES : List (String × CelestialBody) :=
  [("kerbin", kerbin), ("mun", mun), ("minmus", minmus),
   ("duna", duna), ("eve", eve), ("jool", jool)]

/-- The bodies of the catalog, in declaration order. -/
def catalogBodies : List CelestialBody :=
  [kerbin, mun, minmus, duna, eve, jool]

/-- Dictionary access `BODIES[key]` modelled as a key-equality chain. -/
def bodiesGet (key : String) : Option CelestialBody :=
  if key = "kerbin" then some kerbin
  else if key = "mun" then some mun
  else if key = "minmus" then some minmus
  else if key = "duna" then some duna
  else if key = "eve" then some eve
  else if key = "jool" then some jool
  else none

/-- Python's `str.lower()` on one character, for the ASCII range the
catalog keys draw from. -/
def pyLowerChar (c : Char) : Char :=
  if 'A' ≤ c ∧ c ≤ 'Z' then Char.ofNat (c.toNat + 32) else c

/-- Python's `str.lower()` for ASCII strings. -/
def pyLower (s : String) : String :=
  String.mk (s.data.map pyLowerChar)

/-- The catalog lookup performed by `KSPOrbitalDisplay.set_body` (lines
137-141): the caller-supplied name is lowercased before the dictionary
membership test, so lookup is case-insensitive at the call boundary.
`none` plays the role of `UnknownBodyError`. -/
def set_body_lookup (body_name : String) : Option CelestialBody :=
  bodiesGet (pyLower body_name)

/-- Python `int()` applied to an exact value: truncation toward zero. -/
def pythonInt (q : ℚ) : ℤ :=
  if 0 ≤ q then ⌊q⌋ else ⌈q⌉

/-- Eccentricity as computed in `OrbitalParameters.__init__` (lines 85-89):
radii are altitude plus body radius, and
`eccentricity = (apoapsisRadius - periapsisRadius) / (apoapsisRadius + periapsisRadius)`.
This value feeds the ASCII renderer, so it is kept in exact rationals. -/
def eccentricityQ (body : CelestialBody) (apoapsis periapsis : ℚ) : ℚ :=
  ((apoapsis + body.radius) - (periapsis + body.radius)) /
    ((apoapsis + body.radius) + (periapsis + body.radius))

/-- The `up` key handler (lines 234-237): raise apoapsis by 10 km, capped
at 1 000 000 m. -/
def adjust_apo_up (apoapsis _periapsis : ℚ) : ℚ :=
  min (apoapsis + 10000) 1000000

/-- The `down` key handler (lines 238-241): lower apoapsis by 10 km,
floored at `periapsis + 1000`. -/
def adjust_apo_down (apoapsis periapsis : ℚ) : ℚ :=
  max (apoapsis - 10000) (periapsis + 1000)

/-- The minimum periapsis used by the `shift+down` handler (line 248):
`atmosphere + 5000` on bodies with an atmosphere, else 10 000 m. -/
def min_periapsis (body : CelestialBody) : ℚ :=
  if 0 < body.atmosphere then body.atmosphere + 5000 else 10000

/-- The `shift+up` key handler (lines 242-245): raise periapsis by 10 km,
capped at `apoapsis - 1000`. -/
def adjust_peri_up (apoapsis periapsis : ℚ) : ℚ :=
  min (periapsis + 10000) (apoapsis - 1000)

/-- The `shift+down` key handler (lines 246-251): lower periapsis by 10 km,
floored at `min_periapsis`. -/
def adjust_peri_down (body : CelestialBody) (_apoapsis periapsis : ℚ) : ℚ :=
  max (periapsis - 10000) (min_periapsis body)

/-- The ellipse test value of a grid cell in `_generate_orbit_ascii`
(line 213): `(dx/a)^2 + (dy/b)^2` with `dx = x - center_x`,
`dy = y - center_y`, center `(20, 6)` for the fixed 40x12 grid. -/
def ellipseValue (a b : ℤ) (x y : ℕ) : ℚ :=
  let dx : ℤ := (x : ℤ) - 20
  let dy : ℤ := (y : ℤ) - 6
  ((dx : ℚ) / (a : ℚ)) ^ 2 + ((dy : ℚ) / (b : ℚ)) ^ 2

/-- The ellipse-marking step of `_generate_orbit_ascii` (lines 215-218):
`'·'` when the value is in the open band (0.8, 1.2), else the dead
`elif` branch would give `'○'` for (0.9, 1.1), else the cell stays blank. -/
def markChar (v : ℚ) : Char :=
  if 0.8 < v ∧ v < 1.2 then '·'
  else if 0.9 < v ∧ v < 1.1 then '○'
  else ' '

/-- One cell of the orbit grid before the A/P markers (lines 207-226):
ellipse marking (skipped when `b ≤ 0`), then the flattened body disc drawn
on top — `'★'` at the exact center, `'█'` where
`sqrt(dx² + (2·dy)²) ≤ 3` (squared here, an exact equivalence), and the
ellipse mark retained elsewhere inside the bounding box. -/
def cellChar (a b : ℤ) (x y : ℕ) : Char :=
  let dx : ℤ := (x : ℤ) - 20
  let dy : ℤ := (y : ℤ) - 6
  let ellipseMark : Char :=
    if 0 < b then markChar (ellipseValue a b x y) else ' '
  if |dx| ≤ 3 ∧ (|dy| : ℚ) ≤ 3 / 2 then
    if dx = 0 ∧ dy = 0 then '★'
    else if dx ^ 2 + (dy * 2) ^ 2 ≤ 9 then '█'
    else ellipseMark
  else ellipseMark

/-- The final character of grid cell `(x, y)` in `_generate_orbit_ascii`:
the cell character, overwritten by `'A'` at `(center_x + a - 1, center_y)`
and `'P'` at `(center_x - a + 1, center_y)` (lines 228-229; `'P'` is
assigned last, hence tested first).  `a = int(40·0.4)` and
`b = int(12·0.4·(1 - eccentricity))` per lines 201-202. -/
def gridChar (ecc : ℚ) (x y : ℕ) : Char :=
  let a : ℤ := pythonInt ((40 : ℚ) * 0.4)
  let b : ℤ := pythonInt ((12 : ℚ) * 0.4 * (1 - ecc))
  if (y : ℤ) = 6 ∧ (x : ℤ) = 20 - a + 1 then 'P'
  else if (y : ℤ) = 6 ∧ (x : ℤ) = 20 + a - 1 then 'A'
  else cellChar a b x y

/-- The full 40x12 orbit grid as a list of rows of characters. -/
def orbitGrid (ecc : ℚ) : List (List Char) :=
  (List.range 12).map (fun y => (List.range 40).map (fun x => gridChar ecc x y))

/-! Real-valued orbital quantities.  These mirror the float computations of
`OrbitalParameters.__init__` (lines 82-94) and `DeltaVCalculator`
(lines 254-281); `math.sqrt` becomes `Real.sqrt` and `math.pi` becomes
`Real.pi`, with catalog constants cast from their exact rational values. -/

/-- Line 85: `self.apoapsis = apoapsis + radius` (distance from center). -/
noncomputable def apoapsisRadius (body : CelestialBody) (apoapsis : ℝ) : ℝ :=
  apoapsis + (body.radius : ℝ)

/-- Line 86: `self.periapsis = periapsis + radius` (distance from center). -/
noncomputable def periapsisRadius (body : CelestialBody) (periapsis : ℝ) : ℝ :=
  periapsis + (body.radius : ℝ)

/-- Line 88: `self.semi_major_axis = (self.apoapsis + self.periapsis) / 2`. -/
noncomputable def semiMajorAxis (body : CelestialBody) (apoapsis periapsis : ℝ) : ℝ :=
  (apoapsisRadius body apoapsis + periapsisRadius body periapsis) / 2

/-- Line 89: eccentricity over the reals (same formula as `eccentricityQ`). -/
noncomputable def eccentricityR (body : CelestialBody) (apoapsis periapsis : ℝ) : ℝ :=
  (apoapsisRadius body apoapsis - periapsisRadius body periapsis) /
    (apoapsisRadius body apoapsis + periapsisRadius body periapsis)

/-- Line 91: `self.period = 2*pi*sqrt(a**3 / mu)`. -/
noncomputable def period (body : CelestialBody) (apoapsis periapsis : ℝ) : ℝ :=
  2 * Real.pi * Real.sqrt ((semiMajorAxis body apoapsis periapsis) ^ 3 / (body.mu : ℝ))

/-- Line 93: `self.v_apoapsis = sqrt(mu * (2/apoapsisRadius - 1/a))`. -/
noncomputable def v_apoapsis (body : CelestialBody) (apoapsis periapsis : ℝ) : ℝ :=
  Real.sqrt ((body.mu : ℝ) *
    (2 / apoapsisRadius body apoapsis - 1 / semiMajorAxis body apoapsis periapsis))

/-- Line 94: `self.v_periapsis = sqrt(mu * (2/periapsisRadius - 1/a))`. -/
noncomputable def v_periapsis (body : CelestialBody) (apoapsis periapsis : ℝ) : ℝ :=
  Real.sqrt ((body.mu : ℝ) *
    (2 / periapsisRadius body periapsis - 1 / semiMajorAxis body apoapsis periapsis))

/-- `DeltaVCalculator.hohmann_transfer` (lines 256-271): circular speeds at
`r1` and `r2`, transfer-ellipse speeds at its periapsis and apoapsis, and
the two burn magnitudes `(dv1, dv2)`. -/
noncomputable def hohmann_transfer (body : CelestialBody) (r1 r2 : ℝ) : ℝ × ℝ :=
  let mu : ℝ := (body.mu : ℝ)
  let v1 := Real.sqrt (mu / r1)
  let v2 := Real.sqrt (mu / r2)
  let a_transfer := (r1 + r2) / 2
  let v_transfer_peri := Real.sqrt (mu * (2 / r1 - 1 / a_transfer))
  let v_transfer_apo := Real.sqrt (mu * (2 / r2 - 1 / a_transfer))
  (|v_transfer_peri - v1|, |v2 - v_transfer_apo|)

/-- `DeltaVCalculator.phase_angle` (lines 273-275):
`180 * (1 - ((r1/r2)**(3/2))**0.5)`, with both exponentiations real powers
exactly as written in the source. -/
noncomputable def phase_angle (r1 r2 : ℝ) : ℝ :=
  180 * (1 - ((r1 / r2) ^ ((3 : ℝ) / 2)) ^ ((1 : ℝ) / 2))

/-- `DeltaVCalculator.escape_velocity` (lines 277-281):
`sqrt(2 * mu / (radius + altitude))`. -/
noncomputable def escape_velocity (body : CelestialBody) (altitude : ℝ) : ℝ :=
  Real.sqrt (2 * (body.mu : ℝ) / ((body.radius : ℝ) + altitude))

/-- Every body of the catalog has a positive gravitational parameter. -/
lemma catalog_mu_pos : ∀ body ∈ catalogBodies, (0 : ℚ) < body.mu := by
  intro b hb
  simp only [catalogBodies, List.mem_cons, List.not_mem_nil, or_false] at hb
  rcases hb with rfl | rfl | rfl | rfl | rfl | rfl <;>
    norm_num [kerbin, mun, minmus, duna, eve, jool]

end KSP

namespace KSP

/-- C5: for all positive radii `r1`, `r2`, `phase_angle r1 r2` equals
`180 * (1 - (r1/r2)^0.75)` — the exponent effectively applied to the ratio
is exactly 3/4 (`1.5 * 0.5`), not the textbook 1.5. -/
theorem phase_angle_exponent_three_quarters (r1 r2 : ℝ) (h1 : 0 < r1) (h2 : 0 < r2) :
    phase_angle r1 r2 = 180 * (1 - (r1 / r2) ^ ((3 : ℝ) / 4)) := by
  have hx : (0 : ℝ) ≤ r1 / r2 := by positivity
  unfold phase_angle
  rw [show ((3 : ℝ) / 4) = (3 / 2) * (1 / 2) by norm_num, Real.rpow_mul hx]

/-- Witness for C5 at `r1 = 1`, `r2 = 1`. -/
theorem phase_angle_exponent_three_quarters_witness :
    (0 : ℝ) < 1 ∧ phase_angle 1 1 = 180 * (1 - ((1 : ℝ) / 1) ^ ((3 : ℝ) / 4)) :=
  ⟨by norm_num, phase_angle_exponent_three_quarters 1 1 (by norm_num) (by norm_num)⟩

/-- C10: for every catalog body and positive radii, `hohmann_transfer` is
symmetric under swapping the radii with the result pair swapped. -/
theorem hohmann_transfer_swap (body : CelestialBody) (hb : body ∈ catalogBodies)
    (r1 r2 : ℝ) (h1 : 0 < r1) (h2 : 0 < r2) :
    hohmann_transfer body r2 r1 =
      ((hohmann_transfer body r1 r2).2, (hohmann_transfer body r1 r2).1) := by
  simp only [hohmann_transfer]
  rw [add_comm r2 r1]
  simp [abs_sub_comm]

/-- Witness for C10 at Kerbin with `r1 = 1`, `r2 = 2`. -/
theorem hohmann_transfer_swap_witness :
    kerbin ∈ catalogBodies ∧ (0 : ℝ) < 1 ∧ (0 : ℝ) < 2 ∧
    hohmann_transfer kerbin 2 1 =
      ((hohmann_transfer kerbin 1 2).2, (hohmann_transfer kerbin 1 2).1) :=
  ⟨by simp [catalogBodies], by norm_num, by norm_num,
    hohmann_transfer_swap kerbin (by simp [catalogBodies]) 1 2 (by norm_num) (by norm_num)⟩

/-- C4: `escape_velocity` computes `sqrt(2·mu/(radius + altitude))` for every
catalog body and altitude with positive resulting radius, and concretely
`escape_velocity kerbin 0 = sqrt(2·3.5316e12/600000) ≈ 3431.5 m/s`
(the true value 3431.04 is within 0.5 of the quoted 3431.5). -/
theorem escape_velocity_correct :
    (∀ body ∈ catalogBodies, ∀ altitude : ℝ, 0 < (body.radius : ℝ) + altitude →
      escape_velocity body altitude =
        Real.sqrt (2 * (body.mu : ℝ) / ((body.radius : ℝ) + altitude))) ∧
    escape_velocity kerbin 0 = Real.sqrt (2 * 3531600000000 / 600000) ∧
    |escape_velocity kerbin 0 - 3431.5| < 0.5 := by
  refine ⟨fun body _ altitude _ => rfl, ?_, ?_⟩
  · unfold escape_velocity
    norm_num [kerbin]
  · unfold escape_velocity
    have harg : (2 * (kerbin.mu : ℝ) / ((kerbin.radius : ℝ) + 0)) = 11772000 := by
      norm_num [kerbin]
    rw [harg]
    have hlo : (3431 : ℝ) < Real.sqrt 11772000 :=
      (Real.lt_sqrt (by norm_num)).mpr (by norm_num)
    have hhi : Real.sqrt 11772000 < 3431.1 :=
      (Real.sqrt_lt' (by norm_num)).mpr (by norm_num)
    rw [abs_lt]
    constructor <;> nlinarith [hlo, hhi]

/-- Witness for C4 at Kerbin, altitude 0. -/
theorem escape_velocity_correct_witness :
    kerbin ∈ catalogBodies ∧ (0 : ℝ) < (kerbin.radius : ℝ) + 0 ∧
    escape_velocity kerbin 0 =
      Real.sqrt (2 * (kerbin.mu : ℝ) / ((kerbin.radius : ℝ) + 0)) :=
  ⟨by simp [catalogBodies], by norm_num [kerbin],
    escape_velocity_correct.1 kerbin (by simp [catalogBodies]) 0 (by norm_num [kerbin])⟩

/-- C9: catalog lookup is case-insensitive at the call boundary —
`set_body_lookup "KERBIN"` and `set_body_lookup "kerbin"` return the
identical body record, and lookup fails (returns `none`, the embedding of
`UnknownBodyError`) exactly when the lowercased identifier is not one of
kerbin, mun, minmus, duna, eve, jool. -/
theorem set_body_lookup_case_insensitive :
    set_body_lookup "KERBIN" = some kerbin ∧
    set_body_lookup "kerbin" = some kerbin ∧
    ∀ s : String, set_body_lookup s = none ↔
      pyLower s ∉ (["kerbin", "mun", "minmus", "duna", "eve", "jool"] : List String) := by
  have hK : pyLower "KERBIN" = "kerbin" := by decide
  have hk : pyLower "kerbin" = "kerbin" := by decide
  refine ⟨by simp only [set_body_lookup, hK]; rfl, by simp only [set_body_lookup, hk]; rfl, ?_⟩
  intro s
  unfold set_body_lookup bodiesGet
  by_cases h1 : pyLower s = "kerbin"
  · simp [h1]
  by_cases h2 : pyLower s = "mun"
  · simp [h1, h2]
  by_cases h3 : pyLower s = "minmus"
  · simp [h1, h2, h3]
  by_cases h4 : pyLower s = "duna"
  · simp [h1, h2, h3, h4]
  by_cases h5 : pyLower s = "eve"
  · simp [h1, h2, h3, h4, h5]
  by_cases h6 : pyLower s = "jool"
  · simp [h1, h2, h3, h4, h5, h6]
  · simp [h1, h2, h3, h4, h5, h6]

end KSP

namespace KSP

/-- C6 counterexample: from the (reachable via `set_orbit`) state
`apoapsis = 0`, `periapsis = 500000`, the raise-apoapsis handler returns
10000, which is far below `periapsis + 1000 = 501000` — so the claim's
bound does not hold for every starting state. -/
theorem adjust_apo_bounds_counterexample :
    adjust_apo_up 0 500000 = 10000 ∧ adjust_apo_up 0 500000 < 500000 + 1000 := by
  have h : adjust_apo_up 0 500000 = 10000 := by
    rw [adjust_apo_up]
    norm_num [min_def]
  exact ⟨h, by rw [h]; norm_num⟩

/-- C6 amended: for every starting state already satisfying the invariant
`periapsisAltitude + 1000 ≤ apoapsisAltitude ≤ 1_000_000`, both apoapsis
adjustments return an apoapsis altitude in
`[periapsisAltitude + 1000, 1_000_000]`, saturating at the bound. -/
theorem adjust_apo_bounds (apoapsis periapsis : ℚ)
    (hlo : periapsis + 1000 ≤ apoapsis) (hhi : apoapsis ≤ 1000000) :
    (periapsis + 1000 ≤ adjust_apo_up apoapsis periapsis ∧
      adjust_apo_up apoapsis periapsis ≤ 1000000) ∧
    (periapsis + 1000 ≤ adjust_apo_down apoapsis periapsis ∧
      adjust_apo_down apoapsis periapsis ≤ 1000000) := by
  unfold adjust_apo_up adjust_apo_down
  exact ⟨⟨le_min (by linarith) (by linarith), min_le_right _ _⟩,
    ⟨le_max_right _ _, max_le (by linarith) (by linarith)⟩⟩

/-- Witness for the amended C6 at the default state (100 km / 80 km). -/
theorem adjust_apo_bounds_witness :
    ((80000 : ℚ) + 1000 ≤ 100000 ∧ (100000 : ℚ) ≤ 1000000) ∧
    ((80000 + 1000 ≤ adjust_apo_up 100000 80000 ∧
      adjust_apo_up 100000 80000 ≤ 1000000) ∧
    (80000 + 1000 ≤ adjust_apo_down 100000 80000 ∧
      adjust_apo_down 100000 80000 ≤ 1000000)) :=
  ⟨⟨by norm_num, by norm_num⟩, adjust_apo_bounds 100000 80000 (by norm_num) (by norm_num)⟩

/-- C7 counterexample: on Kerbin (atmosphere 70 km, so the minimum
periapsis is 75000), raising periapsis from the (reachable via `set_orbit`)
state `apoapsis = 1000000`, `periapsis = 0` returns 10000, below
`atmosphereHeight + 5000` — so the claim's bound does not hold for every
starting state. -/
theorem adjust_peri_bounds_counterexample :
    min_periapsis kerbin = 75000 ∧ adjust_peri_up 1000000 0 = 10000 ∧
    adjust_peri_up 1000000 0 < min_periapsis kerbin := by
  have hmin : min_periapsis kerbin = 75000 := by
    rw [min_periapsis]
    norm_num [kerbin]
  have h : adjust_peri_up 1000000 0 = 10000 := by
    rw [adjust_peri_up]
    norm_num [min_def]
  exact ⟨hmin, h, by rw [h, hmin]; norm_num⟩

/-- C7 amended: for every body and every starting state already satisfying
the invariant `min_periapsis ≤ periapsisAltitude ≤ apoapsisAltitude - 1000`
(where `min_periapsis` is `atmosphereHeight + 5000` on a body with an
atmosphere and 10000 otherwise), both periapsis adjustments return a
periapsis altitude in `[min_periapsis, apoapsisAltitude - 1000]`. -/
theorem adjust_peri_bounds (body : CelestialBody) (apoapsis periapsis : ℚ)
    (hlo : min_periapsis body ≤ periapsis) (hhi : periapsis ≤ apoapsis - 1000) :
    (min_periapsis body ≤ adjust_peri_up apoapsis periapsis ∧
      adjust_peri_up apoapsis periapsis ≤ apoapsis - 1000) ∧
    (min_periapsis body ≤ adjust_peri_down body apoapsis periapsis ∧
      adjust_peri_down body apoapsis periapsis ≤ apoapsis - 1000) := by
  unfold adjust_peri_up adjust_peri_down
  exact ⟨⟨le_min (by linarith) (by linarith), min_le_right _ _⟩,
    ⟨le_max_right _ _, max_le (by linarith) (by linarith)⟩⟩

/-- Witness for the amended C7 on Kerbin at the state (1000 km / 80 km). -/
theorem adjust_peri_bounds_witness :
    (min_periapsis kerbin ≤ 80000 ∧ (80000 : ℚ) ≤ 1000000 - 1000) ∧
    ((min_periapsis kerbin ≤ adjust_peri_up 1000000 80000 ∧
      adjust_peri_up 1000000 80000 ≤ 1000000 - 1000) ∧
    (min_periapsis kerbin ≤ adjust_peri_down kerbin 1000000 80000 ∧
      adjust_peri_down kerbin 1000000 80000 ≤ 1000000 - 1000)) :=
  ⟨⟨by norm_num [min_periapsis, kerbin], by norm_num⟩,
    adjust_peri_bounds kerbin 1000000 80000
      (by norm_num [min_periapsis, kerbin]) (by norm_num)⟩

end KSP

namespace KSP

/-- The ellipse-marking step never produces `'○'`: its band (0.9, 1.1) is a
subset of the `'·'` band (0.8, 1.2), so the `elif` branch is unreachable. -/
lemma markChar_ne_ring (v : ℚ) : markChar v ≠ '○' := by
  unfold markChar
  split
  · decide
  · next hout =>
    split
    · next hin => exact absurd ⟨by linarith [hin.1], by linarith [hin.2]⟩ hout
    · decide

/-- C2 counterexample: at the default Kerbin orbit (100 km / 80 km,
eccentricity 1/69, semi-axes `a = 16`, `b = 4`), the cell `(x, y) = (20, 10)`
has `ellipseValue = 1`, inside the tighter band (0.9, 1.1) — yet the
rendered grid holds `'·'` there, not the `'○'` the claim requires. -/
theorem orbit_ascii_ring_counterexample :
    pythonInt ((40 : ℚ) * 0.4) = 16 ∧
    pythonInt ((12 : ℚ) * 0.4 * (1 - eccentricityQ kerbin 100000 80000)) = 4 ∧
    ((0.9 : ℚ) < ellipseValue 16 4 20 10 ∧ ellipseValue 16 4 20 10 < 1.1) ∧
    gridChar (eccentricityQ kerbin 100000 80000) 20 10 = '·' := by
  refine ⟨?_, ?_, ⟨?_, ?_⟩, ?_⟩
  · norm_num [pythonInt]
  · norm_num [pythonInt, eccentricityQ, kerbin]
  · norm_num [ellipseValue]
  · norm_num [ellipseValue]
  · norm_num [gridChar, cellChar, markChar, ellipseValue, pythonInt, eccentricityQ, kerbin]

/-- C2 amended: a grid cell whose `ellipseValue` lies in (0.8, 1.2) is
marked `'·'`; the tighter (0.9, 1.1) band also receives `'·'` because the
`elif` branch is dead code, and consequently no cell of any rendered orbit
grid ever contains `'○'`. -/
theorem orbit_ascii_ring_unreachable :
    (∀ v : ℚ, 0.8 < v → v < 1.2 → markChar v = '·') ∧
    (∀ v : ℚ, 0.9 < v → v < 1.1 → markChar v = '·') ∧
    (∀ ecc : ℚ, ∀ x y : ℕ, gridChar ecc x y ≠ '○') := by
  refine ⟨fun v h1 h2 => ?_, fun v h1 h2 => ?_, fun ecc x y => ?_⟩
  · unfold markChar
    rw [if_pos ⟨h1, h2⟩]
  · unfold markChar
    rw [if_pos ⟨by linarith, by linarith⟩]
  · simp only [gridChar, cellChar]
    split
    · decide
    split
    · decide
    split
    · split
      · decide
      split
      · decide
      · split
        · exact markChar_ne_ring _
        · decide
    · split
      · exact markChar_ne_ring _
      · decide

/-- Witness for the amended C2: the value 1 lies in both bands and is
marked `'·'`, and the concrete cell `(0, 0)` of the circular-orbit grid is
not `'○'`. -/
theorem orbit_ascii_ring_unreachable_witness :
    markChar 1 = '·' ∧ gridChar 0 0 0 ≠ '○' :=
  ⟨orbit_ascii_ring_unreachable.2.1 1 (by norm_num) (by norm_num),
    orbit_ascii_ring_unreachable.2.2 0 0 0⟩

/-- The orbit grid always has 12 rows of 40 cells with `'★'` at the center,
whatever eccentricity is supplied. -/
lemma orbitGrid_shape (ecc : ℚ) :
    (orbitGrid ecc).length = 12 ∧
    (∀ row ∈ orbitGrid ecc, row.length = 40) ∧
    ((orbitGrid ecc).getD 6 []).getD 20 ' ' = '★' := by
  refine ⟨by simp [orbitGrid], ?_, ?_⟩
  · intro row hrow
    simp only [orbitGrid, List.mem_map] at hrow
    obtain ⟨y, _, rfl⟩ := hrow
    simp
  · have h6 : (orbitGrid ecc).getD 6 [] =
        (List.range 40).map (fun x => gridChar ecc x 6) := by
      simp [orbitGrid, List.getD_eq_getElem?_getD, List.getElem?_map, List.getElem?_range]
    rw [h6]
    have h20 : ((List.range 40).map (fun x => gridChar ecc x 6)).getD 20 ' ' =
        gridChar ecc 20 6 := by
      simp [List.getD_eq_getElem?_getD, List.getElem?_map, List.getElem?_range]
    rw [h20]
    norm_num [gridChar, cellChar, markChar, ellipseValue, pythonInt]

/-- C8: for every catalog body and altitudes giving positive radii, the
rendered orbit grid (default 40x12) has exactly 12 rows of exactly 40
characters, and the center cell (row 6, column 20) is always `'★'`. -/
theorem orbit_ascii_shape_and_center (body : CelestialBody) (hb : body ∈ catalogBodies)
    (apoapsis periapsis : ℚ)
    (ha : 0 < apoapsis + body.radius) (hp : 0 < periapsis + body.radius) :
    (orbitGrid (eccentricityQ body apoapsis periapsis)).length = 12 ∧
    (∀ row ∈ orbitGrid (eccentricityQ body apoapsis periapsis), row.length = 40) ∧
    ((orbitGrid (eccentricityQ body apoapsis periapsis)).getD 6 []).getD 20 ' ' = '★' :=
  orbitGrid_shape (eccentricityQ body apoapsis periapsis)

/-- Witness for C8 at the default Kerbin orbit. -/
theorem orbit_ascii_shape_and_center_witness :
    kerbin ∈ catalogBodies ∧
    ((0 : ℚ) < 100000 + kerbin.radius ∧ (0 : ℚ) < 80000 + kerbin.radius) ∧
    (orbitGrid (eccentricityQ kerbin 100000 80000)).length = 12 ∧
    (∀ row ∈ orbitGrid (eccentricityQ kerbin 100000 80000), row.length = 40) ∧
    ((orbitGrid (eccentricityQ kerbin 100000 80000)).getD 6 []).getD 20 ' ' = '★' :=
  ⟨by simp [catalogBodies], ⟨by norm_num [kerbin], by norm_num [kerbin]⟩,
    orbit_ascii_shape_and_center kerbin (by simp [catalogBodies]) 100000 80000
      (by norm_num [kerbin]) (by norm_num [kerbin])⟩

end KSP

namespace KSP

/-- C1 counterexample: raising apoapsis from 100 km to 200 km on Kerbin
(periapsis fixed at 80 km) strictly increases the velocity at periapsis,
refuting the claim that it does not increase. -/
theorem v_periapsis_increases_counterexample :
    v_periapsis kerbin 100000 80000 < v_periapsis kerbin 200000 80000 := by
  unfold v_periapsis semiMajorAxis apoapsisRadius periapsisRadius
  have hr : ((kerbin.radius : ℚ) : ℝ) = 600000 := by norm_num [kerbin]
  have hmu : ((kerbin.mu : ℚ) : ℝ) = 3531600000000 := by norm_num [kerbin]
  rw [hr, hmu]
  apply Real.sqrt_lt_sqrt
  · norm_num
  · norm_num

/-- C1 amended: for every catalog body, fixed periapsis altitude and
apoapsis altitudes with positive radii, increasing the apoapsis strictly
increases `semiMajorAxis`, `period` and also `v_periapsis` (the original
claim said the latter does not increase; in fact it strictly increases). -/
theorem orbit_monotone_in_apoapsis (body : CelestialBody) (hb : body ∈ catalogBodies)
    (periapsis apo1 apo2 : ℝ)
    (hpe : 0 < periapsisRadius body periapsis)
    (hap1 : 0 < apoapsisRadius body apo1)
    (hap2 : 0 < apoapsisRadius body apo2)
    (hlt : apo1 < apo2) :
    semiMajorAxis body apo1 periapsis < semiMajorAxis body apo2 periapsis ∧
    period body apo1 periapsis < period body apo2 periapsis ∧
    v_periapsis body apo1 periapsis < v_periapsis body apo2 periapsis := by
  have hmu : (0 : ℝ) < (body.mu : ℝ) := by exact_mod_cast catalog_mu_pos body hb
  have hsma : semiMajorAxis body apo1 periapsis < semiMajorAxis body apo2 periapsis := by
    unfold semiMajorAxis apoapsisRadius periapsisRadius
    linarith
  have ha1pos : 0 < semiMajorAxis body apo1 periapsis := by
    unfold apoapsisRadius at hap1
    unfold periapsisRadius at hpe
    unfold semiMajorAxis apoapsisRadius periapsisRadius
    linarith
  refine ⟨hsma, ?_, ?_⟩
  · unfold period
    have hcube : (semiMajorAxis body apo1 periapsis) ^ 3 <
        (semiMajorAxis body apo2 periapsis) ^ 3 :=
      pow_lt_pow_left₀ hsma (le_of_lt ha1pos) (by norm_num)
    have hdiv : (semiMajorAxis body apo1 periapsis) ^ 3 / (body.mu : ℝ) <
        (semiMajorAxis body apo2 periapsis) ^ 3 / (body.mu : ℝ) :=
      (div_lt_div_iff_of_pos_right hmu).mpr hcube
    have hargnn : 0 ≤ (semiMajorAxis body apo1 periapsis) ^ 3 / (body.mu : ℝ) := by
      positivity
    exact mul_lt_mul_of_pos_left (Real.sqrt_lt_sqrt hargnn hdiv)
      (by positivity : (0 : ℝ) < 2 * Real.pi)
  · unfold v_periapsis
    have hinv : 1 / semiMajorAxis body apo2 periapsis <
        1 / semiMajorAxis body apo1 periapsis :=
      one_div_lt_one_div_of_lt ha1pos hsma
    have hq : 1 / semiMajorAxis body apo1 periapsis <
        2 / periapsisRadius body periapsis := by
      rw [div_lt_div_iff₀ ha1pos hpe]
      unfold apoapsisRadius at hap1
      unfold semiMajorAxis apoapsisRadius periapsisRadius
      unfold periapsisRadius at hpe
      linarith
    have hargnn : 0 ≤ (body.mu : ℝ) *
        (2 / periapsisRadius body periapsis - 1 / semiMajorAxis body apo1 periapsis) := by
      have : 0 < 2 / periapsisRadius body periapsis -
          1 / semiMajorAxis body apo1 periapsis := by linarith
      positivity
    apply Real.sqrt_lt_sqrt hargnn
    apply mul_lt_mul_of_pos_left _ hmu
    linarith

/-- Witness for the amended C1: Kerbin, periapsis 80 km, apoapsis raised
from 100 km to 200 km. -/
theorem orbit_monotone_in_apoapsis_witness :
    kerbin ∈ catalogBodies ∧
    (0 < periapsisRadius kerbin 80000 ∧ 0 < apoapsisRadius kerbin 100000 ∧
      0 < apoapsisRadius kerbin 200000 ∧ (100000 : ℝ) < 200000) ∧
    (semiMajorAxis kerbin 100000 80000 < semiMajorAxis kerbin 200000 80000 ∧
    period kerbin 100000 80000 < period kerbin 200000 80000 ∧
    v_periapsis kerbin 100000 80000 < v_periapsis kerbin 200000 80000) :=
  ⟨by simp [catalogBodies],
    ⟨by norm_num [periapsisRadius, kerbin], by norm_num [apoapsisRadius, kerbin],
      by norm_num [apoapsisRadius, kerbin], by norm_num⟩,
    orbit_monotone_in_apoapsis kerbin (by simp [catalogBodies]) 80000 100000 200000
      (by norm_num [periapsisRadius, kerbin]) (by norm_num [apoapsisRadius, kerbin])
      (by norm_num [apoapsisRadius, kerbin]) (by norm_num)⟩

end KSP

namespace KSP

/-- The semi-major axis of the default Kerbin orbit (100 km / 80 km). -/
lemma semiMajorAxis_kerbin_default : semiMajorAxis kerbin 100000 80000 = 690000 := by
  unfold semiMajorAxis apoapsisRadius periapsisRadius
  norm_num [kerbin]

/-- Numeric bounds for the period of the default Kerbin orbit:
`2π·sqrt(690000³/3.5316e12) ≈ 1916.32 s`. -/
lemma period_kerbin_default_bounds :
    (1915.3 : ℝ) < period kerbin 100000 80000 ∧ period kerbin 100000 80000 < 1917.3 := by
  unfold period
  rw [semiMajorAxis_kerbin_default]
  have hmu : ((kerbin.mu : ℚ) : ℝ) = 3531600000000 := by norm_num [kerbin]
  rw [hmu]
  have harg : ((690000 : ℝ) ^ 3 / 3531600000000) = 30417500 / 327 := by norm_num
  rw [harg]
  have hs1 : (304.99 : ℝ) < Real.sqrt (30417500 / 327) :=
    (Real.lt_sqrt (by norm_num)).mpr (by norm_num)
  have hs2 : Real.sqrt (30417500 / 327) < 304.993 :=
    (Real.sqrt_lt' (by norm_num)).mpr (by norm_num)
  have hp1 := Real.pi_gt_d6
  have hp2 := Real.pi_lt_d6
  constructor
  · nlinarith [hs1, hs2, hp1, hp2, mul_pos (sub_pos.mpr hp1) (sub_pos.mpr hs1)]
  · nlinarith [hs1, hs2, hp1, hp2, mul_pos (sub_pos.mpr hp2) (sub_pos.mpr hs2)]

/-- C3 counterexample: the period of `computeOrbit("kerbin", 100000, 80000)`
is not within 1 second of 1810.1 s — it is about 1916.3 s, more than 100 s
away. -/
theorem kerbin_scenario_period_counterexample :
    1 < |period kerbin 100000 80000 - 1810.1| := by
  have hb := period_kerbin_default_bounds.1
  rw [abs_of_pos (by linarith)]
  linarith

/-- C3 amended: `computeOrbit("kerbin", 100000, 80000)` yields
`apoapsisRadius = 700000`, `periapsisRadius = 680000`,
`semiMajorAxis = 690000`, eccentricity within 1e-5 of 0.01449 (the exact
value is 1/69), and period within 1 second of 1916.3 s (not 1810.1 s). -/
theorem kerbin_scenario_amended :
    apoapsisRadius kerbin 100000 = 700000 ∧
    periapsisRadius kerbin 80000 = 680000 ∧
    semiMajorAxis kerbin 100000 80000 = 690000 ∧
    |eccentricityR kerbin 100000 80000 - 0.01449| < 0.00001 ∧
    |period kerbin 100000 80000 - 1916.3| < 1 := by
  refine ⟨?_, ?_, semiMajorAxis_kerbin_default, ?_, ?_⟩
  · unfold apoapsisRadius
    norm_num [kerbin]
  · unfold periapsisRadius
    norm_num [kerbin]
  · have he : eccentricityR kerbin 100000 80000 = 1 / 69 := by
      unfold eccentricityR apoapsisRadius periapsisRadius
      norm_num [kerbin]
    rw [he, abs_lt]
    constructor <;> norm_num
  · have hb := period_kerbin_default_bounds
    rw [abs_lt]
    exact ⟨by linarith [hb.1], by linarith [hb.2]⟩

end KSP
